import Mathlib

/-!
Verification of the dark-trace detector (src/dark_trace_detector.py),
a script that fetches a wallet's transactions from a blockchain explorer
API and flags calls to unverified, recently created contracts.

Shallow embedding conventions:
* A `Transaction` models one element of the explorer's transaction list.
  The `to` field is `Option String` (`none` models JSON null; the API
  contract guarantees the key is present).  The `input` field is
  `Option String` because the code reads it with `tx.get("input", "")`.
* `ContractInfo` models one element of the `getsourcecode` result array;
  both fields are read with `.get(key, "")` in the code, hence `Option`.
* Network effects are replaced by an oracle `api : String → List ContractInfo`
  giving, for each address, the `result` array of the contract-info endpoint.
* The current UTC time (`datetime.utcnow()`) is modelled as an integer
  number of seconds since the epoch 1970-01-01T00:00:00.
* Unguarded Python exceptions (IndexError on `[0]` of an empty list,
  ValueError from `datetime.strptime`) are modelled with `Except DetectErr`.
-/

/-- One transaction object as returned by the explorer's txlist endpoint.
`to := none` models a JSON null recipient; `input := none` models an absent
input field (read in the code via `tx.get("input", "")`). -/
structure Transaction where
  «to» : Option String
  input : Option String
  hash : String
deriving DecidableEq, Repr

/-- One element of the `getsourcecode` result array.  Both fields are read
in the code via `.get(key, "")`, so an absent key is `none`. -/
structure ContractInfo where
  SourceCode : Option String
  LastUpdated : Option String
deriving DecidableEq, Repr

/-- One entry of the `suspicious` list built by `detect_suspicious_contracts`. -/
structure SuspiciousFinding where
  «to» : String
  method : String
  age_days : Int
  tx_hash : String
deriving DecidableEq, Repr

/-- The unguarded Python exceptions that can escape the classifier:
`indexError` from `result[0]` on an empty list, `parseError` from
`datetime.strptime` on a malformed date string. -/
inductive DetectErr where
  | indexError
  | parseError
deriving DecidableEq, Repr

/-- A calendar date as produced by `datetime.strptime(s, "%Y-%m-%d")`
(midnight, no time component). -/
structure Date where
  year : Nat
  month : Nat
  day : Nat
deriving DecidableEq, Repr

/-- Python code-point slice `s[:n]`. -/
def strTake (s : String) (n : Nat) : String :=
  ⟨s.data.take n⟩

/-- Python `str.strip()`: remove leading and trailing whitespace. -/
def pyStrip (s : String) : String :=
  ⟨((s.data.dropWhile Char.isWhitespace).reverse.dropWhile Char.isWhitespace).reverse⟩

/-- Split a character list at every `-`, keeping empty groups. -/
def splitDash : List Char → List (List Char)
  | [] => [[]]
  | c :: rest =>
    if c = '-' then [] :: splitDash rest
    else
      match splitDash rest with
      | g :: gs => (c :: g) :: gs
      | [] => [[c]]

/-- Numeric value of a list of decimal digit characters. -/
def digitsToNat (cs : List Char) : Nat :=
  cs.foldl (fun a c => 10 * a + (c.toNat - '0'.toNat)) 0

/-- Gregorian leap-year rule, as used by Python's `datetime`. -/
def isLeapYear (y : Nat) : Bool :=
  y % 4 == 0 && (y % 100 != 0 || y % 400 == 0)

/-- Number of days in a month of the proleptic Gregorian calendar. -/
def daysInMonth (y m : Nat) : Nat :=
  if m = 2 then (if isLeapYear y then 29 else 28)
  else if m = 4 ∨ m = 6 ∨ m = 9 ∨ m = 11 then 30
  else 31

/-- Model of `datetime.strptime(s, "%Y-%m-%d")`: the whole string must be
four digits, a dash, one or two digits, a dash, one or two digits
(Python's `_strptime` patterns `%Y` = four digits, `%m`/`%d` = one or two
digits with value ranges 1–12 / 1–31), and the resulting triple must be a
valid proleptic-Gregorian date with year ≥ 1 (`datetime.MINYEAR`).
Returns `none` where Python raises `ValueError`. -/
def parseDate (s : String) : Option Date :=
  match splitDash s.data with
  | [ys, ms, ds] =>
    if ys.all Char.isDigit ∧ ms.all Char.isDigit ∧ ds.all Char.isDigit
        ∧ ys.length = 4 ∧ 1 ≤ ms.length ∧ ms.length ≤ 2
        ∧ 1 ≤ ds.length ∧ ds.length ≤ 2 then
      let y := digitsToNat ys
      let m := digitsToNat ms
      let d := digitsToNat ds
      if 1 ≤ y ∧ 1 ≤ m ∧ m ≤ 12 ∧ 1 ≤ d ∧ d ≤ daysInMonth y m then
        some ⟨y, m, d⟩
      else none
    else none
  | _ => none

/-- Days since 1970-01-01 of a proleptic-Gregorian date (days-from-civil
algorithm), matching Python's `date.toordinal()` up to the epoch offset. -/
def dateToDays (dt : Date) : Int :=
  let y : Nat := if dt.month ≤ 2 then dt.year - 1 else dt.year
  let era : Nat := y / 400
  let yoe : Nat := y % 400
  let mp : Nat := (dt.month + 9) % 12
  let doy : Nat := (153 * mp + 2) / 5 + dt.day - 1
  let doe : Nat := yoe * 365 + yoe / 4 - yoe / 100 + doy
  (Int.ofNat (era * 146097 + doe)) - 719468

/-- Seconds since the epoch of a date's midnight, the value of the parsed
`created_date` on Python's timeline. -/
def dateToSec (dt : Date) : Int :=
  86400 * dateToDays dt

/-- Python `(now - created_date).days`: `timedelta.days` is the floor of
the exact difference in days, hence `Int.fdiv` by 86400 seconds. -/
def ageDays (now : Int) (dt : Date) : Int :=
  Int.fdiv (now - dateToSec dt) 86400

/-- The JSON value found in (or absent from) the `result` field of the
txlist response.  A well-formed response carries a transaction array
(`txList`); error responses carry a string or null. -/
inductive JVal where
  | null
  | str (s : String)
  | txList (txs : List Transaction)
deriving DecidableEq, Repr

/-- Model of `fetch_transactions`: the code returns
`response.json().get("result", [])`, i.e. the empty list when the
`result` field is absent and the field's value verbatim otherwise. -/
def fetch_transactions (resultField : Option JVal) : JVal :=
  resultField.getD (.txList [])

/-- Model of `fetch_contract_info`: the code returns
`response.json().get("result", [])[0]`; the subscript raises IndexError
when the result array is empty. -/
def fetch_contract_info (api : String → List ContractInfo) (addr : String) :
    Except DetectErr ContractInfo :=
  match api addr with
  | [] => .error .indexError
  | ci :: _ => .ok ci

/-- One iteration of the loop body of `detect_suspicious_contracts` for a
single transaction.  Returns the finding appended for this transaction
(if any) or the exception that escapes, paired with the list of addresses
passed to `fetch_contract_info` during the iteration. -/
def detectStep (api : String → List ContractInfo) (now : Int)
    (max_age_days : Int) (tx : Transaction) :
    Except DetectErr (Option SuspiciousFinding) × List String :=
  let «to» := tx.«to».getD ""
  let input_data := tx.input.getD ""
  if «to» = "" ∨ input_data = "" ∨ input_data = "0x" then
    (.ok none, [])
  else
    match fetch_contract_info api «to» with
    | .error e => (.error e, [«to»])
    | .ok contract_info =>
      let source_code := contract_info.SourceCode.getD ""
      let created := contract_info.LastUpdated.getD ""
      if source_code = "" ∨ pyStrip source_code = "" then
        match parseDate created with
        | none => (.error .parseError, [«to»])
        | some created_date =>
          let age_days := ageDays now created_date
          if age_days ≤ max_age_days then
            (.ok (some ⟨«to», strTake input_data 10, age_days, tx.hash⟩), [«to»])
          else
            (.ok none, [«to»])
      else
        (.ok none, [«to»])

/-- The loop of `detect_suspicious_contracts`: findings are appended in
iteration order; the first escaping exception aborts the run and discards
the accumulated list.  The second component is the trace of addresses
passed to `fetch_contract_info` before returning or aborting. -/
def detectAux (api : String → List ContractInfo) (now : Int)
    (max_age_days : Int) : List Transaction →
    Except DetectErr (List SuspiciousFinding) × List String
  | [] => (.ok [], [])
  | tx :: rest =>
    match detectStep api now max_age_days tx with
    | (.error e, ls) => (.error e, ls)
    | (.ok f?, ls) =>
      match detectAux api now max_age_days rest with
      | (.error e, ls') => (.error e, ls ++ ls')
      | (.ok fs, ls') =>
        (.ok (match f? with | some f => f :: fs | none => fs), ls ++ ls')

/-- Model of `detect_suspicious_contracts(transactions, api_key, max_age_days)`:
the returned findings list, or the exception that aborts the run. -/
def detect_suspicious_contracts (api : String → List ContractInfo)
    (now : Int) (transactions : List Transaction) (max_age_days : Int) :
    Except DetectErr (List SuspiciousFinding) :=
  (detectAux api now max_age_days transactions).1

/-- The contract-info lookups performed by a run of
`detect_suspicious_contracts` (up to the point of success or abort). -/
def detectLookups (api : String → List ContractInfo)
    (now : Int) (transactions : List Transaction) (max_age_days : Int) :
    List String :=
  (detectAux api now max_age_days transactions).2

/-- The finding contributed by one transaction when its iteration does not
raise (used to state order preservation). -/
def stepFinding (api : String → List ContractInfo) (now : Int)
    (max_age_days : Int) (tx : Transaction) : Option SuspiciousFinding :=
  match (detectStep api now max_age_days tx).1 with
  | .ok f? => f?
  | .error _ => none

/-! Helper lemmas about the classifier loop. -/

theorem detectAux_nil (api : String → List ContractInfo) (now max_age_days : Int) :
    detectAux api now max_age_days [] = (.ok [], []) := rfl

theorem detectAux_ok_eq (api : String → List ContractInfo) (now max_age_days : Int)
    (txs : List Transaction) :
    ∀ fs l, detectAux api now max_age_days txs = (.ok fs, l) →
      fs = txs.filterMap (stepFinding api now max_age_days) := by
  induction txs with
  | nil =>
    intro fs l h
    simp [detectAux] at h
    simp [h.1]
  | cons tx rest ih =>
    intro fs l h
    rw [detectAux] at h
    rcases hstep : detectStep api now max_age_days tx with ⟨f, ls⟩
    rw [hstep] at h
    cases f with
    | error e => simp at h
    | ok f? =>
      have hsf : stepFinding api now max_age_days tx = f? := by
        simp [stepFinding, hstep]
      rcases haux : detectAux api now max_age_days rest with ⟨r, ls'⟩
      rw [haux] at h
      cases r with
      | error e => simp at h
      | ok fs' =>
        have hrest := ih fs' ls' haux
        simp at h
        rw [List.filterMap_cons, hsf]
        cases f? with
        | none => simpa [← h.1] using hrest
        | some f0 => simp [← h.1, hrest]

theorem detectAux_append_error (api : String → List ContractInfo)
    (now max_age_days : Int) (tx : Transaction) (e : DetectErr)
    (hstep : (detectStep api now max_age_days tx).1 = .error e) :
    ∀ pre rest : List Transaction,
      ∃ e2, (detectAux api now max_age_days (pre ++ tx :: rest)).1 = .error e2 := by
  intro pre
  induction pre with
  | nil =>
    intro rest
    refine ⟨e, ?_⟩
    rw [List.nil_append, detectAux]
    rcases h1 : detectStep api now max_age_days tx with ⟨f, ls⟩
    rw [h1] at hstep
    simp at hstep
    rw [hstep]
  | cons p pre ih =>
    intro rest
    rw [List.cons_append, detectAux]
    rcases h1 : detectStep api now max_age_days p with ⟨f, ls⟩
    cases f with
    | error e3 => exact ⟨e3, rfl⟩
    | ok f? =>
      obtain ⟨e2, h2⟩ := ih rest
      rcases h3 : detectAux api now max_age_days (pre ++ tx :: rest) with ⟨r, ls'⟩
      rw [h3] at h2
      simp at h2
      rw [h2]
      exact ⟨e2, rfl⟩

/-- Claim C1: for a candidate transaction (non-null recipient, input payload
present, not "0x") whose looked-up contract has empty-after-trim source code,
the classifier emits exactly one finding when `age_days ≤ max_age_days` —
carrying the recipient, the first 10 characters of the input payload as the
method selector, the age and the transaction hash — and no finding when
`age_days > max_age_days`. -/
theorem unverified_young_flagged_old_not (api : String → List ContractInfo)
    (now max_age_days : Int) (tx : Transaction) (ci : ContractInfo)
    (cis : List ContractInfo) (dt : Date)
    (hto : tx.«to».getD "" ≠ "")
    (hin : tx.input.getD "" ≠ "")
    (hin2 : tx.input.getD "" ≠ "0x")
    (happi : api (tx.«to».getD "") = ci :: cis)
    (hsrc : pyStrip (ci.SourceCode.getD "") = "")
    (hdate : parseDate (ci.LastUpdated.getD "") = some dt) :
    (ageDays now dt ≤ max_age_days →
      detectStep api now max_age_days tx =
        (.ok (some ⟨tx.«to».getD "", strTake (tx.input.getD "") 10,
          ageDays now dt, tx.hash⟩), [tx.«to».getD ""]) ∧
      detect_suspicious_contracts api now [tx] max_age_days =
        .ok [⟨tx.«to».getD "", strTake (tx.input.getD "") 10,
          ageDays now dt, tx.hash⟩]) ∧
    (max_age_days < ageDays now dt →
      detectStep api now max_age_days tx = (.ok none, [tx.«to».getD ""]) ∧
      detect_suspicious_contracts api now [tx] max_age_days = .ok []) := by
  constructor
  · intro hage
    have hstep : detectStep api now max_age_days tx =
        (.ok (some ⟨tx.«to».getD "", strTake (tx.input.getD "") 10,
          ageDays now dt, tx.hash⟩), [tx.«to».getD ""]) := by
      simp [detectStep, fetch_contract_info, happi, hto, hin, hin2, hsrc,
        hdate, hage]
    exact ⟨hstep, by simp [detect_suspicious_contracts, detectAux, hstep]⟩
  · intro hage
    have hstep : detectStep api now max_age_days tx =
        (.ok none, [tx.«to».getD ""]) := by
      simp [detectStep, fetch_contract_info, happi, hto, hin, hin2, hsrc,
        hdate, not_le.mpr hage]
    exact ⟨hstep, by simp [detect_suspicious_contracts, detectAux, hstep]⟩

/-- Witness for C1, on the spec's Scenario C/D data: contract updated
2023-05-05, now = noon 2023-05-10 (age 5 days), threshold 7. -/
theorem unverified_young_flagged_old_not_witness :
    (ageDays (dateToSec ⟨2023, 5, 10⟩ + 43200) ⟨2023, 5, 5⟩ ≤ 7 →
      detectStep (fun _ => [⟨some "", some "2023-05-05"⟩])
          (dateToSec ⟨2023, 5, 10⟩ + 43200) 7
          ⟨some "0xAAA", some "0xa9059cbb000", "0xh1"⟩ =
        (.ok (some ⟨(Transaction.mk (some "0xAAA") (some "0xa9059cbb000") "0xh1").«to».getD "",
          strTake ((Transaction.mk (some "0xAAA") (some "0xa9059cbb000") "0xh1").input.getD "") 10,
          ageDays (dateToSec ⟨2023, 5, 10⟩ + 43200) ⟨2023, 5, 5⟩, "0xh1"⟩), ["0xAAA"]) ∧
      detect_suspicious_contracts (fun _ => [⟨some "", some "2023-05-05"⟩])
          (dateToSec ⟨2023, 5, 10⟩ + 43200)
          [⟨some "0xAAA", some "0xa9059cbb000", "0xh1"⟩] 7 =
        .ok [⟨(Transaction.mk (some "0xAAA") (some "0xa9059cbb000") "0xh1").«to».getD "",
          strTake ((Transaction.mk (some "0xAAA") (some "0xa9059cbb000") "0xh1").input.getD "") 10,
          ageDays (dateToSec ⟨2023, 5, 10⟩ + 43200) ⟨2023, 5, 5⟩, "0xh1"⟩]) ∧
    (7 < ageDays (dateToSec ⟨2023, 5, 10⟩ + 43200) ⟨2023, 5, 5⟩ →
      detectStep (fun _ => [⟨some "", some "2023-05-05"⟩])
          (dateToSec ⟨2023, 5, 10⟩ + 43200) 7
          ⟨some "0xAAA", some "0xa9059cbb000", "0xh1"⟩ = (.ok none, ["0xAAA"]) ∧
      detect_suspicious_contracts (fun _ => [⟨some "", some "2023-05-05"⟩])
          (dateToSec ⟨2023, 5, 10⟩ + 43200)
          [⟨some "0xAAA", some "0xa9059cbb000", "0xh1"⟩] 7 = .ok []) :=
  unverified_young_flagged_old_not (fun _ => [⟨some "", some "2023-05-05"⟩])
    (dateToSec ⟨2023, 5, 10⟩ + 43200) 7
    ⟨some "0xAAA", some "0xa9059cbb000", "0xh1"⟩
    ⟨some "", some "2023-05-05"⟩ [] ⟨2023, 5, 5⟩
    (by decide) (by decide) (by decide) rfl rfl (by decide)

/-- Claim C2: a transaction with a null recipient, or an absent or empty
input payload, or input payload exactly "0x", triggers no contract-info
lookup and produces no finding. -/
theorem skip_no_lookup_no_finding (api : String → List ContractInfo)
    (now max_age_days : Int) (tx : Transaction)
    (h : tx.«to» = none ∨ tx.input = none ∨ tx.input = some "" ∨
      tx.input = some "0x") :
    detectStep api now max_age_days tx = (.ok none, []) ∧
    detect_suspicious_contracts api now [tx] max_age_days = .ok [] ∧
    detectLookups api now [tx] max_age_days = [] := by
  have hstep : detectStep api now max_age_days tx = (.ok none, []) := by
    rcases h with h | h | h | h <;> simp [detectStep, h]
  refine ⟨hstep, ?_, ?_⟩ <;>
    simp [detect_suspicious_contracts, detectLookups, detectAux, hstep]

/-- Witness for C2: a null-recipient transaction is skipped. -/
theorem skip_no_lookup_no_finding_witness :
    detectStep (fun _ => []) 0 7 ⟨none, some "0xabc", "0xh"⟩ = (.ok none, []) ∧
    detect_suspicious_contracts (fun _ => []) 0 [⟨none, some "0xabc", "0xh"⟩] 7 =
      .ok [] ∧
    detectLookups (fun _ => []) 0 [⟨none, some "0xabc", "0xh"⟩] 7 = [] :=
  skip_no_lookup_no_finding (fun _ => []) 0 7 ⟨none, some "0xabc", "0xh"⟩
    (Or.inl rfl)

/-- Claim C3: a candidate transaction whose looked-up contract has source
code that is non-empty after trimming is never flagged, for every age and
every threshold. -/
theorem verified_never_flagged (api : String → List ContractInfo)
    (now max_age_days : Int) (tx : Transaction) (ci : ContractInfo)
    (cis : List ContractInfo)
    (hto : tx.«to».getD "" ≠ "")
    (hin : tx.input.getD "" ≠ "")
    (hin2 : tx.input.getD "" ≠ "0x")
    (happi : api (tx.«to».getD "") = ci :: cis)
    (hsrc : pyStrip (ci.SourceCode.getD "") ≠ "") :
    detectStep api now max_age_days tx = (.ok none, [tx.«to».getD ""]) ∧
    detect_suspicious_contracts api now [tx] max_age_days = .ok [] := by
  have hne : ci.SourceCode.getD "" ≠ "" := by
    intro h0
    exact hsrc (by rw [h0]; rfl)
  have hstep : detectStep api now max_age_days tx =
      (.ok none, [tx.«to».getD ""]) := by
    simp [detectStep, fetch_contract_info, happi, hto, hin, hin2, hne, hsrc]
  exact ⟨hstep, by simp [detect_suspicious_contracts, detectAux, hstep]⟩

/-- Witness for C3, on the spec's Scenario E data: a verified contract
(`pragma solidity ...` source) only one day old is not flagged. -/
theorem verified_never_flagged_witness :
    detectStep (fun _ => [⟨some "pragma solidity ^0.8.0; contract X {}",
        some "2023-05-09"⟩]) (dateToSec ⟨2023, 5, 10⟩ + 43200) 7
        ⟨some "0xAAA", some "0xa9059cbb000", "0xh1"⟩ = (.ok none, ["0xAAA"]) ∧
    detect_suspicious_contracts
        (fun _ => [⟨some "pragma solidity ^0.8.0; contract X {}",
          some "2023-05-09"⟩]) (dateToSec ⟨2023, 5, 10⟩ + 43200)
        [⟨some "0xAAA", some "0xa9059cbb000", "0xh1"⟩] 7 = .ok [] :=
  verified_never_flagged
    (fun _ => [⟨some "pragma solidity ^0.8.0; contract X {}", some "2023-05-09"⟩])
    (dateToSec ⟨2023, 5, 10⟩ + 43200) 7
    ⟨some "0xAAA", some "0xa9059cbb000", "0xh1"⟩
    ⟨some "pragma solidity ^0.8.0; contract X {}", some "2023-05-09"⟩ []
    (by decide) (by decide) (by decide) rfl (by decide)

/-- Counterexample to claim C4 as stated: when the response's `result`
field is present but is not a transaction list (here the error string the
explorer uses for rate-limit failures), `fetch_transactions` does not
return an empty sequence — it returns the string value verbatim. -/
theorem fetch_transactions_nonlist_counterexample :
    fetch_transactions (some (.str "Max rate limit reached")) ≠
      .txList [] ∧
    fetch_transactions (some (.str "Max rate limit reached")) =
      .str "Max rate limit reached" := by
  constructor
  · intro h
    simp [fetch_transactions] at h
  · rfl

/-- Claim C4 (amended): `fetch_transactions` returns an empty sequence when
the response's `result` field is missing; when the field is present its
value is returned verbatim, even when it is not a transaction list (a null
or an error string is passed through unchanged, not replaced by an empty
sequence). -/
theorem fetch_transactions_result_verbatim :
    fetch_transactions none = .txList [] ∧
    ∀ v : JVal, fetch_transactions (some v) = v :=
  ⟨rfl, fun _ => rfl⟩

/-- Claim C5: an empty contract-info result array yields the unguarded
IndexError-class failure in `fetch_contract_info`, and when this happens
for a candidate transaction the whole classification run aborts: no
findings list is returned, wherever the transaction sits in the input. -/
theorem empty_result_index_error_aborts (api : String → List ContractInfo)
    (now max_age_days : Int) (tx : Transaction)
    (hto : tx.«to».getD "" ≠ "")
    (hin : tx.input.getD "" ≠ "")
    (hin2 : tx.input.getD "" ≠ "0x")
    (happi : api (tx.«to».getD "") = []) :
    fetch_contract_info api (tx.«to».getD "") = .error .indexError ∧
    detectStep api now max_age_days tx =
      (.error .indexError, [tx.«to».getD ""]) ∧
    ∀ pre rest : List Transaction, ∀ fs : List SuspiciousFinding,
      detect_suspicious_contracts api now (pre ++ tx :: rest) max_age_days ≠
        .ok fs := by
  have hf : fetch_contract_info api (tx.«to».getD "") = .error .indexError := by
    simp [fetch_contract_info, happi]
  have hstep : detectStep api now max_age_days tx =
      (.error .indexError, [tx.«to».getD ""]) := by
    simp [detectStep, hto, hin, hin2, hf]
  refine ⟨hf, hstep, ?_⟩
  intro pre rest fs hok
  obtain ⟨e2, he2⟩ := detectAux_append_error api now max_age_days tx
    .indexError (by rw [hstep]) pre rest
  simp only [detect_suspicious_contracts] at hok
  rw [hok] at he2
  exact absurd he2 (by simp)

/-- Witness for C5, the spec's Scenario F: the lookup for the only
candidate returns an empty array, and the run aborts. -/
theorem empty_result_index_error_aborts_witness :
    fetch_contract_info (fun _ => []) "0xAAA" = .error .indexError ∧
    detectStep (fun _ => []) 0 7 ⟨some "0xAAA", some "0xa9059cbb000", "0xh1"⟩ =
      (.error .indexError, ["0xAAA"]) ∧
    ∀ pre rest : List Transaction, ∀ fs : List SuspiciousFinding,
      detect_suspicious_contracts (fun _ => []) 0
        (pre ++ ⟨some "0xAAA", some "0xa9059cbb000", "0xh1"⟩ :: rest) 7 ≠
          .ok fs :=
  empty_result_index_error_aborts (fun _ => []) 0 7
    ⟨some "0xAAA", some "0xa9059cbb000", "0xh1"⟩
    (by decide) (by decide) (by decide) rfl

/-- Claim C6: for a candidate transaction whose looked-up contract is
unverified and whose last-updated string is empty, missing, or otherwise
rejected by the fixed `%Y-%m-%d` parse, the iteration raises the unguarded
parse failure, and the whole run aborts: no findings list is returned for
any input list containing the transaction, so findings accumulated for
earlier candidates are discarded. -/
theorem malformed_date_aborts_run (api : String → List ContractInfo)
    (now max_age_days : Int) (tx : Transaction) (ci : ContractInfo)
    (cis : List ContractInfo)
    (hto : tx.«to».getD "" ≠ "")
    (hin : tx.input.getD "" ≠ "")
    (hin2 : tx.input.getD "" ≠ "0x")
    (happi : api (tx.«to».getD "") = ci :: cis)
    (hsrc : pyStrip (ci.SourceCode.getD "") = "")
    (hdate : parseDate (ci.LastUpdated.getD "") = none) :
    detectStep api now max_age_days tx =
      (.error .parseError, [tx.«to».getD ""]) ∧
    ∀ pre rest : List Transaction, ∀ fs : List SuspiciousFinding,
      detect_suspicious_contracts api now (pre ++ tx :: rest) max_age_days ≠
        .ok fs := by
  have hstep : detectStep api now max_age_days tx =
      (.error .parseError, [tx.«to».getD ""]) := by
    simp [detectStep, fetch_contract_info, happi, hto, hin, hin2, hsrc, hdate]
  refine ⟨hstep, ?_⟩
  intro pre rest fs hok
  obtain ⟨e2, he2⟩ := detectAux_append_error api now max_age_days tx
    .parseError (by rw [hstep]) pre rest
  simp only [detect_suspicious_contracts] at hok
  rw [hok] at he2
  exact absurd he2 (by simp)

/-- Witness for C6: an unverified contract whose `LastUpdated` field is
missing (so the parsed string is empty) aborts a run in which an earlier
flaggable candidate exists. -/
theorem malformed_date_aborts_run_witness :
    detectStep (fun _ => [⟨some "", none⟩]) 0 7
      ⟨some "0xBBB", some "0xdeadbeef00", "0xh2"⟩ =
        (.error .parseError, ["0xBBB"]) ∧
    ∀ pre rest : List Transaction, ∀ fs : List SuspiciousFinding,
      detect_suspicious_contracts (fun _ => [⟨some "", none⟩]) 0
        (pre ++ ⟨some "0xBBB", some "0xdeadbeef00", "0xh2"⟩ :: rest) 7 ≠
          .ok fs :=
  malformed_date_aborts_run (fun _ => [⟨some "", none⟩]) 0 7
    ⟨some "0xBBB", some "0xdeadbeef00", "0xh2"⟩ ⟨some "", none⟩ []
    (by decide) (by decide) (by decide) rfl rfl rfl

/-- Claim C7: a successful run returns exactly the per-transaction findings
in input order — the findings list is the input list's filterMap under the
loop body, so the relative order of qualifying transactions is preserved. -/
theorem findings_preserve_input_order (api : String → List ContractInfo)
    (now max_age_days : Int) (txs : List Transaction)
    (fs : List SuspiciousFinding)
    (h : detect_suspicious_contracts api now txs max_age_days = .ok fs) :
    fs = txs.filterMap (stepFinding api now max_age_days) := by
  rcases haux : detectAux api now max_age_days txs with ⟨r, l⟩
  simp only [detect_suspicious_contracts, haux] at h
  exact detectAux_ok_eq api now max_age_days txs fs l (by rw [haux, h])

/-- Witness for C7: two flaggable candidates produce two findings in the
transactions' order. -/
theorem findings_preserve_input_order_witness :
    detect_suspicious_contracts (fun _ => [⟨some "", some "2023-05-05"⟩])
        (dateToSec ⟨2023, 5, 10⟩ + 43200)
        [⟨some "0xAAA", some "0xaaaaaaaaaa00", "0xh1"⟩,
         ⟨some "0xCCC", some "0xbbbbbbbbbb00", "0xh2"⟩] 7 =
      .ok [⟨"0xAAA", "0xaaaaaaaa", 5, "0xh1"⟩,
           ⟨"0xCCC", "0xbbbbbbbb", 5, "0xh2"⟩] ∧
    [(⟨"0xAAA", "0xaaaaaaaa", 5, "0xh1"⟩ : SuspiciousFinding),
     ⟨"0xCCC", "0xbbbbbbbb", 5, "0xh2"⟩] =
      List.filterMap
        (stepFinding (fun _ => [⟨some "", some "2023-05-05"⟩])
          (dateToSec ⟨2023, 5, 10⟩ + 43200) 7)
        [⟨some "0xAAA", some "0xaaaaaaaaaa00", "0xh1"⟩,
         ⟨some "0xCCC", some "0xbbbbbbbbbb00", "0xh2"⟩] :=
  ⟨by rfl,
    findings_preserve_input_order (fun _ => [⟨some "", some "2023-05-05"⟩])
      (dateToSec ⟨2023, 5, 10⟩ + 43200) 7
      [⟨some "0xAAA", some "0xaaaaaaaaaa00", "0xh1"⟩,
       ⟨some "0xCCC", some "0xbbbbbbbbbb00", "0xh2"⟩]
      [⟨"0xAAA", "0xaaaaaaaa", 5, "0xh1"⟩, ⟨"0xCCC", "0xbbbbbbbb", 5, "0xh2"⟩]
      (by rfl)⟩

/-- Claim C8: each transaction contributes at most one finding, so a
successful run never returns more findings than input transactions. -/
theorem at_most_one_finding_per_transaction (api : String → List ContractInfo)
    (now max_age_days : Int) (txs : List Transaction)
    (fs : List SuspiciousFinding)
    (h : detect_suspicious_contracts api now txs max_age_days = .ok fs) :
    fs.length ≤ txs.length := by
  rcases haux : detectAux api now max_age_days txs with ⟨r, l⟩
  simp only [detect_suspicious_contracts, haux] at h
  rw [detectAux_ok_eq api now max_age_days txs fs l (by rw [haux, h])]
  exact List.length_filterMap_le _ _

/-- Witness for C8: a run over three transactions (one skipped, one
verified, one flagged) returns one finding, within the input count. -/
theorem at_most_one_finding_per_transaction_witness :
    detect_suspicious_contracts
        (fun a => if a = "0xVVV" then [⟨some "contract X {}", some "2023-05-05"⟩]
          else [⟨some "", some "2023-05-05"⟩])
        (dateToSec ⟨2023, 5, 10⟩ + 43200)
        [⟨some "0xAAA", some "0x", "0xh0"⟩,
         ⟨some "0xVVV", some "0xaaaaaaaaaa00", "0xh1"⟩,
         ⟨some "0xBBB", some "0xbbbbbbbbbb00", "0xh2"⟩] 7 =
      .ok [⟨"0xBBB", "0xbbbbbbbb", 5, "0xh2"⟩] ∧
    [(⟨"0xBBB", "0xbbbbbbbb", 5, "0xh2"⟩ : SuspiciousFinding)].length ≤
      [(⟨some "0xAAA", some "0x", "0xh0"⟩ : Transaction),
       ⟨some "0xVVV", some "0xaaaaaaaaaa00", "0xh1"⟩,
       ⟨some "0xBBB", some "0xbbbbbbbbbb00", "0xh2"⟩].length :=
  ⟨by rfl,
    at_most_one_finding_per_transaction
      (fun a => if a = "0xVVV" then [⟨some "contract X {}", some "2023-05-05"⟩]
        else [⟨some "", some "2023-05-05"⟩])
      (dateToSec ⟨2023, 5, 10⟩ + 43200) 7
      [⟨some "0xAAA", some "0x", "0xh0"⟩,
       ⟨some "0xVVV", some "0xaaaaaaaaaa00", "0xh1"⟩,
       ⟨some "0xBBB", some "0xbbbbbbbbbb00", "0xh2"⟩]
      [⟨"0xBBB", "0xbbbbbbbb", 5, "0xh2"⟩] (by rfl)⟩

/-- Claim C9: a candidate whose unverified contract carries a last-updated
date strictly after the current time gets a negative `age_days` (floor of a
negative difference), so for every non-negative threshold it is flagged,
with the negative age recorded in the finding. -/
theorem future_date_negative_age_flagged (api : String → List ContractInfo)
    (now max_age_days : Int) (tx : Transaction) (ci : ContractInfo)
    (cis : List ContractInfo) (dt : Date)
    (hto : tx.«to».getD "" ≠ "")
    (hin : tx.input.getD "" ≠ "")
    (hin2 : tx.input.getD "" ≠ "0x")
    (happi : api (tx.«to».getD "") = ci :: cis)
    (hsrc : pyStrip (ci.SourceCode.getD "") = "")
    (hdate : parseDate (ci.LastUpdated.getD "") = some dt)
    (hfut : now < dateToSec dt)
    (hmax : 0 ≤ max_age_days) :
    ageDays now dt < 0 ∧
    detectStep api now max_age_days tx =
      (.ok (some ⟨tx.«to».getD "", strTake (tx.input.getD "") 10,
        ageDays now dt, tx.hash⟩), [tx.«to».getD ""]) ∧
    detect_suspicious_contracts api now [tx] max_age_days =
      .ok [⟨tx.«to».getD "", strTake (tx.input.getD "") 10,
        ageDays now dt, tx.hash⟩] := by
  have hneg : ageDays now dt < 0 := by
    have h1 : now - dateToSec dt < 0 := by omega
    have h2 : (0 : Int) < 86400 := by decide
    simpa [ageDays] using Int.fdiv_neg' h1 h2
  have hage : ageDays now dt ≤ max_age_days := le_trans (le_of_lt hneg) hmax
  have hstep : detectStep api now max_age_days tx =
      (.ok (some ⟨tx.«to».getD "", strTake (tx.input.getD "") 10,
        ageDays now dt, tx.hash⟩), [tx.«to».getD ""]) := by
    simp [detectStep, fetch_contract_info, happi, hto, hin, hin2, hsrc,
      hdate, hage]
  exact ⟨hneg, hstep, by simp [detect_suspicious_contracts, detectAux, hstep]⟩

/-- Witness for C9: an unverified contract dated tomorrow relative to the
current time is flagged with `age_days = -1` under threshold 7. -/
theorem future_date_negative_age_flagged_witness :
    ageDays (dateToSec ⟨2023, 5, 10⟩) ⟨2023, 5, 11⟩ < 0 ∧
    detectStep (fun _ => [⟨some "", some "2023-05-11"⟩])
        (dateToSec ⟨2023, 5, 10⟩) 7
        ⟨some "0xAAA", some "0xa9059cbb000", "0xh1"⟩ =
      (.ok (some ⟨(Transaction.mk (some "0xAAA") (some "0xa9059cbb000") "0xh1").«to».getD "",
        strTake ((Transaction.mk (some "0xAAA") (some "0xa9059cbb000") "0xh1").input.getD "") 10,
        ageDays (dateToSec ⟨2023, 5, 10⟩) ⟨2023, 5, 11⟩, "0xh1"⟩), ["0xAAA"]) ∧
    detect_suspicious_contracts (fun _ => [⟨some "", some "2023-05-11"⟩])
        (dateToSec ⟨2023, 5, 10⟩)
        [⟨some "0xAAA", some "0xa9059cbb000", "0xh1"⟩] 7 =
      .ok [⟨(Transaction.mk (some "0xAAA") (some "0xa9059cbb000") "0xh1").«to».getD "",
        strTake ((Transaction.mk (some "0xAAA") (some "0xa9059cbb000") "0xh1").input.getD "") 10,
        ageDays (dateToSec ⟨2023, 5, 10⟩) ⟨2023, 5, 11⟩, "0xh1"⟩] :=
  future_date_negative_age_flagged (fun _ => [⟨some "", some "2023-05-11"⟩])
    (dateToSec ⟨2023, 5, 10⟩) 7
    ⟨some "0xAAA", some "0xa9059cbb000", "0xh1"⟩
    ⟨some "", some "2023-05-11"⟩ [] ⟨2023, 5, 11⟩
    (by decide) (by decide) (by decide) rfl rfl (by decide) (by decide)
    (by decide)

/-- Claim C10: when a flagged candidate's input payload is shorter than 10
characters, taking the first 10 characters yields the whole payload, so the
finding's method selector is the entire input payload. -/
theorem short_input_method_is_whole_payload (api : String → List ContractInfo)
    (now max_age_days : Int) (tx : Transaction) (ci : ContractInfo)
    (cis : List ContractInfo) (dt : Date)
    (hto : tx.«to».getD "" ≠ "")
    (hin : tx.input.getD "" ≠ "")
    (hin2 : tx.input.getD "" ≠ "0x")
    (happi : api (tx.«to».getD "") = ci :: cis)
    (hsrc : pyStrip (ci.SourceCode.getD "") = "")
    (hdate : parseDate (ci.LastUpdated.getD "") = some dt)
    (hage : ageDays now dt ≤ max_age_days)
    (hlen : (tx.input.getD "").length < 10) :
    detectStep api now max_age_days tx =
      (.ok (some ⟨tx.«to».getD "", tx.input.getD "",
        ageDays now dt, tx.hash⟩), [tx.«to».getD ""]) ∧
    detect_suspicious_contracts api now [tx] max_age_days =
      .ok [⟨tx.«to».getD "", tx.input.getD "", ageDays now dt, tx.hash⟩] := by
  have hdl : (tx.input.getD "").data.length ≤ 10 := by
    have h1 := hlen
    simp only [String.length] at h1
    omega
  have htake : strTake (tx.input.getD "") 10 = tx.input.getD "" := by
    simp only [strTake, List.take_of_length_le hdl]
  have hstep : detectStep api now max_age_days tx =
      (.ok (some ⟨tx.«to».getD "", tx.input.getD "",
        ageDays now dt, tx.hash⟩), [tx.«to».getD ""]) := by
    simp [detectStep, fetch_contract_info, happi, hto, hin, hin2, hsrc,
      hdate, hage, htake]
  exact ⟨hstep, by simp [detect_suspicious_contracts, detectAux, hstep]⟩

/-- Witness for C10: a 4-character payload "0xab" becomes the method
selector of the finding unchanged. -/
theorem short_input_method_is_whole_payload_witness :
    detectStep (fun _ => [⟨some "", some "2023-05-05"⟩])
        (dateToSec ⟨2023, 5, 10⟩ + 43200) 7
        ⟨some "0xAAA", some "0xab", "0xh1"⟩ =
      (.ok (some ⟨(Transaction.mk (some "0xAAA") (some "0xab") "0xh1").«to».getD "",
        (Transaction.mk (some "0xAAA") (some "0xab") "0xh1").input.getD "",
        ageDays (dateToSec ⟨2023, 5, 10⟩ + 43200) ⟨2023, 5, 5⟩, "0xh1"⟩), ["0xAAA"]) ∧
    detect_suspicious_contracts (fun _ => [⟨some "", some "2023-05-05"⟩])
        (dateToSec ⟨2023, 5, 10⟩ + 43200)
        [⟨some "0xAAA", some "0xab", "0xh1"⟩] 7 =
      .ok [⟨(Transaction.mk (some "0xAAA") (some "0xab") "0xh1").«to».getD "",
        (Transaction.mk (some "0xAAA") (some "0xab") "0xh1").input.getD "",
        ageDays (dateToSec ⟨2023, 5, 10⟩ + 43200) ⟨2023, 5, 5⟩, "0xh1"⟩] :=
  short_input_method_is_whole_payload (fun _ => [⟨some "", some "2023-05-05"⟩])
    (dateToSec ⟨2023, 5, 10⟩ + 43200) 7
    ⟨some "0xAAA", some "0xab", "0xh1"⟩
    ⟨some "", some "2023-05-05"⟩ [] ⟨2023, 5, 5⟩
    (by decide) (by decide) (by decide) rfl rfl (by decide) (by decide)
    (by decide)
